import Mathlib

/- Verification development for the homogenize package: the analytic
   expansion engine of homogenize/model.py and the Monte Carlo validator of
   homogenize/slow.py, embedded over the reals.  The float-specific policies
   of the nan-aware sum in u and of the exception-guarded difficult terms in
   v2_symmetric are modelled separately with an explicit FloatVal type. -/

/-- Modelled from the spec: homogenize/running.py (class RunningStats) is not
under src, only its callers are.  Spec section 4.1 specifies Welford's online
algorithm: fields count, mean, M2; push ingests one value v with new count n
via delta equal to v minus the old mean, new mean equal to old mean plus
delta over n, new M2 equal to old M2 plus delta times (v minus the new mean);
variance returns M2 over count (population variance). -/
structure RunningStats where
  n : ℕ
  mean : ℝ
  M2 : ℝ

/-- Modelled from the spec: an accumulator created empty per time-grid point. -/
def RunningStats.empty : RunningStats := ⟨0, 0, 0⟩

/-- Modelled from the spec: Welford push step of section 4.1. -/
noncomputable def RunningStats.push (rs : RunningStats) (v : ℝ) : RunningStats :=
  let delta := v - rs.mean
  let mean2 := rs.mean + delta / ((rs.n : ℝ) + 1)
  ⟨rs.n + 1, mean2, rs.M2 + delta * (v - mean2)⟩

/-- Modelled from the spec: population variance, M2 divided by count. -/
noncomputable def RunningStats.variance (rs : RunningStats) : ℝ :=
  rs.M2 / (rs.n : ℝ)

/-- Push a whole list of observations, one at a time, oldest first. -/
noncomputable def RunningStats.pushList (rs : RunningStats) (l : List ℝ) : RunningStats :=
  l.foldl RunningStats.push rs

/-- Arithmetic mean of a list of observations. -/
noncomputable def listMean (l : List ℝ) : ℝ := l.sum / (l.length : ℝ)

/-- Sum of squares of a list of observations. -/
noncomputable def listSq (l : List ℝ) : ℝ := (l.map fun v => v ^ 2).sum

/-- Population variance of a list of observations. -/
noncomputable def listVar (l : List ℝ) : ℝ :=
  listSq l / (l.length : ℝ) - (listMean l) ^ 2

/-- The accumulator state reached by pushing exactly the observations of l. -/
noncomputable def statsOf (l : List ℝ) : RunningStats :=
  ⟨l.length, listMean l, listSq l - l.sum ^ 2 / (l.length : ℝ)⟩

lemma statsOf_nil : statsOf [] = RunningStats.empty := by
  simp [statsOf, RunningStats.empty, listMean, listSq]

lemma statsOf_push (p : List ℝ) (v : ℝ) :
    (statsOf p).push v = statsOf (p ++ [v]) := by
  rcases eq_or_ne p [] with hp | hp
  · subst hp
    simp only [statsOf, RunningStats.push, listMean, listSq, List.nil_append,
      List.sum_nil, List.map_nil, List.length_nil, List.map_cons, List.sum_cons,
      List.length_cons, RunningStats.mk.injEq]
    norm_num
  · have hn : (p.length : ℝ) ≠ 0 :=
      Nat.cast_ne_zero.mpr (List.length_pos.mpr hp).ne'
    have hn1 : (p.length : ℝ) + 1 ≠ 0 := by positivity
    simp only [statsOf, RunningStats.push, listMean, listSq, List.sum_append,
      List.map_append, List.length_append, List.map_cons, List.map_nil,
      List.sum_cons, List.sum_nil, List.length_cons, List.length_nil,
      RunningStats.mk.injEq]
    refine ⟨trivial, ?_, ?_⟩ <;> push_cast <;> field_simp <;> ring

lemma pushList_statsOf (l : List ℝ) : ∀ p : List ℝ,
    (statsOf p).pushList l = statsOf (p ++ l) := by
  induction l with
  | nil => intro p; simp [RunningStats.pushList]
  | cons v l ih =>
      intro p
      have h1 : (statsOf p).pushList (v :: l) = ((statsOf p).push v).pushList l := rfl
      rw [h1, statsOf_push, ih]
      simp

lemma pushList_empty_eq (l : List ℝ) :
    RunningStats.empty.pushList l = statsOf l := by
  rw [← statsOf_nil, pushList_statsOf]
  simp

lemma statsOf_mean (l : List ℝ) : (statsOf l).mean = listMean l := rfl

lemma statsOf_n (l : List ℝ) : (statsOf l).n = l.length := rfl

lemma statsOf_variance (l : List ℝ) : (statsOf l).variance = listVar l := by
  simp only [RunningStats.variance, statsOf, listVar, listMean, sub_div, div_pow]
  rw [div_div]
  ring_nf

lemma push_n (rs : RunningStats) (v : ℝ) : (rs.push v).n = rs.n + 1 := rfl

lemma pushList_n (l : List ℝ) : ∀ rs : RunningStats,
    (rs.pushList l).n = rs.n + l.length := by
  induction l with
  | nil => intro rs; simp [RunningStats.pushList]
  | cons v l ih =>
      intro rs
      have h1 : rs.pushList (v :: l) = (rs.push v).pushList l := rfl
      rw [h1, ih, push_n]
      simp [List.length_cons]
      omega

/-- Python exception kinds that the embedded code can raise. -/
inductive PyErr where
  | zeroDivisionError : PyErr
  | assertionError : PyErr
  | indexError : PyErr
  | overflowError : PyErr
deriving DecidableEq

/-- Decide whether an Except value is a success. -/
def isOkE {ε α : Type _} : Except ε α → Bool
  | .ok _ => true
  | .error _ => false

/-- Parameter object of homogenize/model.py, class RegimeSwitchingModel:
raw parameters plus the derived quantities cached by the constructor. -/
structure RegimeSwitchingModel where
  kappa : ℝ
  thetas : ℝ × ℝ
  sigmas : ℝ × ℝ
  lmbd : ℝ
  theta_bar : ℝ
  ss_bar : ℝ
  theta_under : ℝ
  ss_under : ℝ
  epsilon : ℝ

/-- Real-number semantics of the body of RegimeSwitchingModel.__init__:
the derived quantities computed and stored by the constructor. -/
noncomputable def RegimeSwitchingModel.make
    (kappa : ℝ) (thetas sigmas : ℝ × ℝ) (lmbd : ℝ) : RegimeSwitchingModel :=
  { kappa := kappa
    thetas := thetas
    sigmas := sigmas
    lmbd := lmbd
    theta_bar := 0.5 * (thetas.1 + thetas.2)
    ss_bar := 0.5 * (sigmas.1 ^ 2 + sigmas.2 ^ 2)
    theta_under := 0.5 * (thetas.1 - thetas.2)
    ss_under := 0.5 * (sigmas.1 ^ 2 - sigmas.2 ^ 2)
    epsilon := 1 / lmbd }

/-- RegimeSwitchingModel.__init__ as a fallible constructor: the only
operation in the body that can raise is epsilon equal to 1 over lmbd,
which raises ZeroDivisionError exactly when lmbd is zero.  No parameter
validation of any kind is performed. -/
noncomputable def RegimeSwitchingModel.init
    (kappa : ℝ) (thetas sigmas : ℝ × ℝ) (lmbd : ℝ) :
    Except PyErr RegimeSwitchingModel :=
  if lmbd = 0 then .error .zeroDivisionError
  else .ok (RegimeSwitchingModel.make kappa thetas sigmas lmbd)

/-- Method tau of model.py. -/
noncomputable def RegimeSwitchingModel.tau (m : RegimeSwitchingModel) (t : ℝ) : ℝ :=
  (1 - Real.exp (-m.kappa * t)) / m.kappa

/-- Method a0 of model.py. -/
noncomputable def RegimeSwitchingModel.a0 (m : RegimeSwitchingModel) (t : ℝ) : ℝ :=
  (m.theta_bar - m.ss_bar / (2 * m.kappa ^ 2)) * (m.tau t - t) -
    m.ss_bar * (m.tau t) ^ 2 / (4 * m.kappa)

/-- Method u0 of model.py. -/
noncomputable def RegimeSwitchingModel.u0 (m : RegimeSwitchingModel) (t x : ℝ) : ℝ :=
  Real.exp (m.a0 t - m.tau t * x)

/-- Method u0_check of model.py, the independently written reference
implementation of the same closed form. -/
noncomputable def RegimeSwitchingModel.u0_check (m : RegimeSwitchingModel) (t x : ℝ) : ℝ :=
  let K_ := m.kappa
  let tau_ := (1 - Real.exp (-K_ * t)) / K_
  let ss_bar := m.ss_bar
  let A := Real.exp ((m.theta_bar - ss_bar / (2 * K_ ^ 2)) * (tau_ - t) -
    ss_bar / (4 * K_) * tau_ ^ 2)
  A * Real.exp (-x * tau_)

/-- Method v1_antisymmetric of model.py. -/
noncomputable def RegimeSwitchingModel.v1_antisymmetric
    (m : RegimeSwitchingModel) (t : ℝ) : ℝ :=
  let cg := m.theta_under
  let cg1 := m.kappa
  let cg3 := m.ss_under
  (cg * (1 - Real.exp (-cg1 * t)) +
    cg3 * (1 - Real.exp (-cg1 * t)) ^ 2 / cg1 ^ 2 / 2) ^ 2

/-- Method v1_symmetric of model.py. -/
noncomputable def RegimeSwitchingModel.v1_symmetric
    (m : RegimeSwitchingModel) (t : ℝ) : ℝ :=
  let cg := m.theta_under
  let cg1 := m.kappa
  let cg4 := m.ss_under
  ((-24 * cg ^ 2 * cg1 ^ 4 - 72 * cg * cg1 ^ 2 * cg4 - 36 * cg4 ^ 2) *
      Real.exp (-(2 * cg1 * t)) +
    (96 * cg ^ 2 * cg1 ^ 4 + 144 * cg * cg1 ^ 2 * cg4 + 48 * cg4 ^ 2) *
      Real.exp (-(cg1 * t)) +
    16 * cg4 * (cg * cg1 ^ 2 + cg4) * Real.exp (-(3 * cg1 * t)) +
    48 * cg ^ 2 * cg1 ^ 5 * t - 72 * cg ^ 2 * cg1 ^ 4 +
    48 * cg * cg1 ^ 3 * cg4 * t - 88 * cg * cg1 ^ 2 * cg4 +
    12 * cg1 * cg4 ^ 2 * t - 3 * cg4 ^ 2 * Real.exp (-(4 * cg1 * t)) -
    25 * cg4 ^ 2) / cg1 ^ 5 / 48

/-- Method v2_antisymmetric of model.py. -/
noncomputable def RegimeSwitchingModel.v2_antisymmetric
    (m : RegimeSwitchingModel) (t : ℝ) : ℝ :=
  let cg := m.theta_under
  let cg1 := m.kappa
  let cg3 := m.ss_under
  (-(-2 * (-24 * cg ^ 2 * cg1 ^ 4 - 72 * cg * cg1 ^ 2 * cg3 - 36 * cg3 ^ 2) * cg1 *
      Real.exp (-(2 * cg1 * t)) -
    (96 * cg ^ 2 * cg1 ^ 4 + 144 * cg * cg1 ^ 2 * cg3 + 48 * cg3 ^ 2) * cg1 *
      Real.exp (-(cg1 * t)) -
    48 * cg3 * (cg * cg1 ^ 2 + cg3) * cg1 * Real.exp (-(3 * cg1 * t)) +
    48 * cg ^ 2 * cg1 ^ 5 + 48 * cg * cg1 ^ 3 * cg3 + 12 * cg1 * cg3 ^ 2 +
    12 * cg3 ^ 2 * cg1 * Real.exp (-(4 * cg1 * t))) / cg1 ^ 5 / 48 +
  (cg * (1 - Real.exp (-(cg1 * t))) +
      cg3 * (1 - Real.exp (-(cg1 * t))) ^ 2 / cg1 ^ 2 / 2) *
    ((-24 * cg ^ 2 * cg1 ^ 4 - 72 * cg * cg1 ^ 2 * cg3 - 36 * cg3 ^ 2) *
        Real.exp (-(2 * cg1 * t)) +
      (96 * cg ^ 2 * cg1 ^ 4 + 144 * cg * cg1 ^ 2 * cg3 + 48 * cg3 ^ 2) *
        Real.exp (-(cg1 * t)) +
      16 * cg3 * (cg * cg1 ^ 2 + cg3) * Real.exp (-(3 * cg1 * t)) +
      48 * cg ^ 2 * cg1 ^ 5 * t - 72 * cg ^ 2 * cg1 ^ 4 +
      48 * cg * cg1 ^ 3 * cg3 * t - 88 * cg * cg1 ^ 2 * cg3 +
      12 * cg1 * cg3 ^ 2 * t - 3 * cg3 ^ 2 * Real.exp (-(4 * cg1 * t)) -
      25 * cg3 ^ 2) / cg1 ^ 5 / 48)

set_option maxHeartbeats 2000000 in
/-- Sub-term list terms of method v2_symmetric of model.py, in source order
(26 entries). -/
noncomputable def RegimeSwitchingModel.v2_symmetric_terms
    (m : RegimeSwitchingModel) (t : ℝ) : List ℝ :=
  let cg := m.theta_under
  let cg1 := m.kappa
  let cg3 := m.ss_under
  let terms : List ℝ :=
    [25 / 8 / cg1 ^ 3 * cg ^ 2 * cg3,
     137 / 80 / cg1 ^ 5 * cg * cg3 ^ 2,
     9 / 2 / cg1 ^ 3 / Real.exp (cg1 * t) ^ 2 * cg ^ 2 * cg3 -
       6 / cg1 ^ 3 / Real.exp (cg1 * t) * cg ^ 2 * cg3 -
       2 / cg1 ^ 3 * cg3 / Real.exp (cg1 * t) ^ 3 * cg ^ 2 -
       3 / 2 / cg1 ^ 2 * cg ^ 2 * cg3 * t -
       3 / 4 / cg1 ^ 4 * cg * cg3 ^ 2 * t,
     3 / 8 / cg1 ^ 3 * cg ^ 2 / Real.exp (cg1 * t) ^ 4 * cg3,
     15 / 4 / cg1 ^ 5 * cg / Real.exp (cg1 * t) ^ 2 * cg3 ^ 2 -
       15 / 4 / cg1 ^ 5 * cg / Real.exp (cg1 * t) * cg3 ^ 2 -
       5 / 2 / cg1 ^ 5 * cg * cg3 ^ 2 / Real.exp (cg1 * t) ^ 3,
     15 / 16 / cg1 ^ 5 * cg * cg3 ^ 2 / Real.exp (cg1 * t) ^ 4 -
       3 / 20 / cg1 ^ 5 * cg / Real.exp (cg1 * t) ^ 5 * cg3 ^ 2 -
       47 / 48 / cg1 ^ 7 * cg * cg3 ^ 3 * t -
       131 / 48 / cg1 ^ 5 * cg ^ 2 * cg3 ^ 2 * t -
       10 / 3 / cg1 ^ 3 * cg ^ 3 * cg3 * t,
     59 / 288 / cg1 ^ 8 * cg * cg3 ^ 3 / Real.exp (cg1 * t) ^ 6 -
       15 / 16 / cg1 ^ 8 * cg * cg3 ^ 3 / Real.exp (cg1 * t) ^ 5,
     165 / 32 / cg1 ^ 8 * cg * cg3 ^ 3 / Real.exp (cg1 * t) ^ 2 -
       163 / 48 / cg1 ^ 8 * cg * cg3 ^ 3 / Real.exp (cg1 * t) -
       1 / cg1 ^ 8 * cg * cg3 ^ 3 / Real.exp (cg1 * t) ^ 7 / 48,
     247 / 96 / cg1 ^ 8 * cg * cg3 ^ 3 / Real.exp (cg1 * t) ^ 4 -
       653 / 144 / cg1 ^ 8 * cg * cg3 ^ 3 / Real.exp (cg1 * t) ^ 3,
     1 / cg1 ^ 6 * cg * cg3 ^ 3 * t ^ 2 / 4,
     1021 / 96 / cg1 ^ 6 * cg ^ 2 * cg3 ^ 2 / Real.exp (cg1 * t) ^ 2 -
       193 / 24 / cg1 ^ 6 * cg ^ 2 * cg3 ^ 2 / Real.exp (cg1 * t),
     25 / 288 / cg1 ^ 6 * cg ^ 2 * cg3 ^ 2 / Real.exp (cg1 * t) ^ 6 -
       19 / 24 / cg1 ^ 6 * cg ^ 2 * cg3 ^ 2 / Real.exp (cg1 * t) ^ 5,
     313 / 96 / cg1 ^ 6 * cg ^ 2 * cg3 ^ 2 / Real.exp (cg1 * t) ^ 4 -
       137 / 18 / cg1 ^ 6 * cg ^ 2 * cg3 ^ 2 / Real.exp (cg1 * t) ^ 3,
     3 / 4 / cg1 ^ 4 * cg ^ 2 * cg3 ^ 2 * t ^ 2 -
       49 / 6 / cg1 ^ 4 * cg ^ 3 * cg3 / Real.exp (cg1 * t) -
       1 / cg1 ^ 4 * cg ^ 3 * cg3 / Real.exp (cg1 * t) ^ 5 / 6,
     17 / 12 / cg1 ^ 4 * cg ^ 3 * cg3 / Real.exp (cg1 * t) ^ 4 -
       5 / cg1 ^ 4 * cg ^ 3 * cg3 / Real.exp (cg1 * t) ^ 3,
     55 / 6 / cg1 ^ 4 * cg ^ 3 * cg3 / Real.exp (cg1 * t) ^ 2,
     1 / cg1 ^ 2 * cg ^ 3 * cg3 * t ^ 2 -
       19 / 8 / Real.exp (cg1 * t) ^ 2 / cg1 ^ 5 * cg ^ 2 * cg3 ^ 2 * t,
     7 / 4 / Real.exp (cg1 * t) / cg1 ^ 7 * cg * cg3 ^ 3 * t,
     2 / 3 / Real.exp (cg1 * t) ^ 3 / cg1 ^ 5 * cg ^ 2 * cg3 ^ 2 * t,
     1 / Real.exp (cg1 * t) ^ 3 / cg1 ^ 3 * cg ^ 3 * cg3 * t / 3,
     9 / 2 / Real.exp (cg1 * t) / cg1 ^ 5 * cg ^ 2 * cg3 ^ 2 * t -
       2 / Real.exp (cg1 * t) ^ 2 / cg1 ^ 3 * cg ^ 3 * cg3 * t,
     cg ^ 4 * t ^ 2 / 2 - cg ^ 3 * t,
     3 / 2 / cg1 / Real.exp (cg1 * t) ^ 2 * cg ^ 3 -
       3 / cg1 / Real.exp (cg1 * t) * cg ^ 3 -
       1 / cg1 * cg ^ 3 / Real.exp (cg1 * t) ^ 3 / 3,
     15 / 16 / cg1 ^ 7 * cg3 ^ 3 / Real.exp (cg1 * t) ^ 2 -
       3 / 4 / cg1 ^ 7 * cg3 ^ 3 / Real.exp (cg1 * t) -
       5 / 6 / cg1 ^ 7 * cg3 ^ 3 / Real.exp (cg1 * t) ^ 3 -
       1 / cg1 ^ 6 * cg3 ^ 3 * t / 8,
     15 / 32 / cg1 ^ 7 * cg3 ^ 3 / Real.exp (cg1 * t) ^ 4 -
       3 / 20 / cg1 ^ 7 * cg3 ^ 3 / Real.exp (cg1 * t) ^ 5,
     1 / cg1 ^ 7 * cg3 ^ 3 / Real.exp (cg1 * t) ^ 6 / 48 -
       25 / 192 / cg1 ^ 9 * cg3 ^ 4 * t -
       3 / 2 / cg1 * cg ^ 4 * t]
  terms

set_option maxHeartbeats 2000000 in
/-- Sub-term list difficult_terms of method v2_symmetric of model.py, in
source order (19 entries), built inside the try block. -/
noncomputable def RegimeSwitchingModel.v2_symmetric_difficult
    (m : RegimeSwitchingModel) (t : ℝ) : List ℝ :=
  let cg := m.theta_under
  let cg1 := m.kappa
  let cg3 := m.ss_under
  let difficult_terms : List ℝ :=
    [1 / cg1 ^ 10 * cg3 ^ 4 / Real.exp (cg1 * t) ^ 8 / 512 -
       1 / cg1 ^ 10 * cg3 ^ 4 / Real.exp (cg1 * t) ^ 7 / 48,
     59 / 576 / cg1 ^ 10 * cg3 ^ 4 / Real.exp (cg1 * t) ^ 6 -
       5 / 16 / cg1 ^ 10 * cg3 ^ 4 / Real.exp (cg1 * t) ^ 5,
     497 / 768 / cg1 ^ 10 * cg3 ^ 4 / Real.exp (cg1 * t) ^ 4 -
       133 / 144 / cg1 ^ 10 * cg3 ^ 4 / Real.exp (cg1 * t) ^ 3,
     57 / 64 / cg1 ^ 10 * cg3 ^ 4 / Real.exp (cg1 * t) ^ 2 -
       25 / 48 / cg1 ^ 10 * cg3 ^ 4 / Real.exp (cg1 * t),
     1 / cg1 ^ 8 * cg3 ^ 4 * t ^ 2 / 32,
     1 / cg1 ^ 2 * cg ^ 4 / Real.exp (cg1 * t) ^ 4 / 8 -
       1 / cg1 ^ 2 * cg ^ 4 / Real.exp (cg1 * t) ^ 3,
     11 / 4 / cg1 ^ 2 * cg ^ 4 / Real.exp (cg1 * t) ^ 2 -
       3 / cg1 ^ 2 * cg ^ 4 / Real.exp (cg1 * t),
     1 / Real.exp (cg1 * t) / cg1 ^ 9 * cg3 ^ 4 * t / 4,
     275 / 288 / cg1 ^ 8 * cg * cg3 ^ 3,
     709 / 288 / cg1 ^ 6 * cg ^ 2 * cg3 ^ 2,
     2 / Real.exp (cg1 * t) / cg1 * cg ^ 4 * t -
       1 / Real.exp (cg1 * t) ^ 2 / cg1 * cg ^ 4 * t / 2,
     11 / 4 / cg1 ^ 4 * cg ^ 3 * cg3 -
       1 / Real.exp (cg1 * t) ^ 4 / cg1 ^ 9 * cg3 ^ 4 * t / 64,
     1 / Real.exp (cg1 * t) ^ 3 / cg1 ^ 9 * cg3 ^ 4 * t / 12 -
       3 / 16 / Real.exp (cg1 * t) ^ 2 / cg1 ^ 9 * cg3 ^ 4 * t,
     11 / 6 / cg1 * cg ^ 3,
     49 / 160 / cg1 ^ 7 * cg3 ^ 3,
     5 / Real.exp (cg1 * t) / cg1 ^ 3 * cg ^ 3 * cg3 * t -
       1 / Real.exp (cg1 * t) ^ 4 / cg1 ^ 7 * cg * cg3 ^ 3 * t / 16,
     5 / 12 / Real.exp (cg1 * t) ^ 3 / cg1 ^ 7 * cg * cg3 ^ 3 * t,
     (-1) / Real.exp (cg1 * t) ^ 4 / cg1 ^ 5 * cg ^ 2 * cg3 ^ 2 * t / 16 -
       9 / 8 / Real.exp (cg1 * t) ^ 2 / cg1 ^ 7 * cg * cg3 ^ 3 * t,
     9 / 8 / cg1 ^ 2 * cg ^ 4]
  difficult_terms

/-- Method v2_symmetric of model.py, real-number semantics: the sum of the
26 sub-terms of the first group and the 19 sub-terms of the difficult group,
in source order.  Over the reals no sub-term can raise, so the try branch
always succeeds; the exception policy of the try and except block is
modelled separately by difficultTermsList below. -/
noncomputable def RegimeSwitchingModel.v2_symmetric
    (m : RegimeSwitchingModel) (t : ℝ) : ℝ :=
  (m.v2_symmetric_terms t ++ m.v2_symmetric_difficult t).sum

/-- Method series of model.py: the ordered list of the five series terms. -/
noncomputable def RegimeSwitchingModel.series
    (m : RegimeSwitchingModel) (t x : ℝ) (s : ℕ) : List ℝ :=
  let u0 := m.u0 t x
  let epsilon := 1 / m.lmbd
  let pm : ℝ := if s = 0 then 1 else -1
  [u0,
   u0 * epsilon * m.v1_symmetric t,
   u0 * epsilon * pm * m.v1_antisymmetric t,
   u0 * epsilon ^ 2 * m.v2_symmetric t,
   u0 * epsilon ^ 2 * pm * m.v2_antisymmetric t]

/-- Method u of model.py over the reals: np.nansum of a list of real
numbers (all finite) is the plain sum.  The float-level nan handling of
np.nansum is modelled by the nansum function on FloatVal below. -/
noncomputable def RegimeSwitchingModel.u
    (m : RegimeSwitchingModel) (t x : ℝ) (s : ℕ) : ℝ :=
  (m.series t x s).sum

/-- Value of a Python float: a finite real, NaN, or a signed infinity. -/
inductive FloatVal where
  | finite : ℝ → FloatVal
  | nan : FloatVal
  | inf : FloatVal
  | neginf : FloatVal

/-- IEEE 754 addition on FloatVal (the finite case carries exact real
arithmetic; finite overflow is not modelled).  NaN absorbs everything,
opposite infinities give NaN, an infinity absorbs finite values. -/
def FloatVal.add : FloatVal → FloatVal → FloatVal
  | .nan, _ => .nan
  | _, .nan => .nan
  | .inf, .neginf => .nan
  | .neginf, .inf => .nan
  | .inf, _ => .inf
  | _, .inf => .inf
  | .neginf, _ => .neginf
  | _, .neginf => .neginf
  | .finite a, .finite b => .finite (a + b)

/-- Left-to-right IEEE summation starting from positive zero, as performed
by a numpy reduction over an array of floats. -/
def ieeeSum (l : List FloatVal) : FloatVal :=
  l.foldl FloatVal.add (.finite 0)

/-- Replace NaN by zero, keep every other value (infinities included). -/
def nanToZero : FloatVal → FloatVal
  | .nan => .finite 0
  | v => v

/-- Semantics of np.nansum as used by method u of model.py on the list of
the five series terms: NaN entries are treated as zero, every other entry
(positive or negative infinity included) enters the IEEE sum, and an
all-NaN input yields zero. -/
def nansum (l : List FloatVal) : FloatVal :=
  ieeeSum (l.map nanToZero)

/-- Summation policy asserted by the claim for u: every non-finite series
term (NaN or either infinity) contributes zero, so the result is a finite
sum of only the finite terms.  Written from the claim, for comparison with
nansum. -/
def nonfiniteAsZeroSum (l : List FloatVal) : FloatVal :=
  .finite ((l.filterMap fun v =>
    match v with
    | .finite r => some r
    | _ => none).sum)

/-- Float-level policy of the try and except block around difficult_terms in
v2_symmetric of model.py: the 19 sub-term expressions are evaluated in order
while building the list; if every evaluation succeeds the values (finite or
not) are all kept, and if any evaluation raises, the whole list is replaced
by the single entry zero.  Each evaluation outcome is abstracted as an
Except value. -/
def difficultTermsList (evals : List (Except PyErr FloatVal)) : List FloatVal :=
  if evals.all isOkE then evals.filterMap Except.toOption
  else [.finite 0]

/-- The except branch of v2_symmetric prints a warning; this flag records
whether that branch ran. -/
def difficultWarning (evals : List (Except PyErr FloatVal)) : Bool :=
  !(evals.all isOkE)

/-- Per-sub-term policy asserted by the claim for the difficult group: each
sub-term that fails to evaluate, or that evaluates to a non-finite value, is
individually excluded, and every finite sub-term is kept.  Written from the
claim, for comparison with difficultTermsList. -/
def claimDifficultFiltered (evals : List (Except PyErr FloatVal)) : List FloatVal :=
  evals.filterMap fun e =>
    match e with
    | .ok (.finite r) => some (.finite r)
    | _ => none

/-- State of homogenize/slow.py, class SlowSimulator: inherited model
parameters, the time grid, the initial point and regime, the per-grid-point
accumulators, and the derived survival curves.  The attributes survival1 and
survival_std are first assigned inside simulate, so before the first call
they do not exist; an Option models attribute presence. -/
structure SlowSimulator where
  model : RegimeSwitchingModel
  ts : List ℝ
  x : ℝ
  s : ℕ
  integrals : List RunningStats
  exp_int : List RunningStats
  survival : List ℝ
  survival1 : Option (List ℝ)
  survival_std : Option (List ℝ)

/-- Continuation of SlowSimulator.__init__ after the parent constructor:
the statement assert ts[0] greater than 0 raises IndexError on an empty
grid and AssertionError on a non-positive first grid point, and otherwise
the fields are initialised: one empty accumulator per grid point for
integrals and for exp_int, survival set to 1 at every grid point, and no
survival1 or survival_std attribute yet. -/
noncomputable def slowInitAux (em : Except PyErr RegimeSwitchingModel)
    (ts : List ℝ) (x : ℝ) (s : ℕ) : Except PyErr SlowSimulator :=
  match em, ts with
  | .error e, _ => .error e
  | .ok _, [] => .error .indexError
  | .ok m, t0 :: tl =>
    if t0 > 0 then
      .ok { model := m
            ts := t0 :: tl
            x := x
            s := s
            integrals := (t0 :: tl).map fun _ => RunningStats.empty
            exp_int := (t0 :: tl).map fun _ => RunningStats.empty
            survival := (t0 :: tl).map fun _ => (1 : ℝ)
            survival1 := none
            survival_std := none }
    else .error .assertionError

/-- SlowSimulator.__init__ as a fallible constructor: first the parent
constructor runs (ZeroDivisionError when lmbd is zero), then the assert on
the first grid element; nothing else is validated, in particular the grid
is not checked for monotonicity. -/
noncomputable def SlowSimulator.init
    (kappa : ℝ) (thetas sigmas : ℝ × ℝ) (lmbd : ℝ)
    (ts : List ℝ) (x : ℝ) (s : ℕ) : Except PyErr SlowSimulator :=
  slowInitAux (RegimeSwitchingModel.init kappa thetas sigmas lmbd) ts x s

/-- The step list dts equal to np.diff of the list 0 followed by ts:
entry k is ts k minus its predecessor (with predecessor 0 at k zero). -/
noncomputable def mkDts (ts : List ℝ) : List ℝ :=
  List.zipWith (fun a b => a - b) ts (0 :: ts)

/-- Inner loop of SlowSimulator.simulate for one path: threading the state
xt, st, intx through the steps, producing the list of running integrals
pushed at each grid index (one value per step, in grid order).  The draw
source g yields for every step the pair of the standard normal draw used in
the Euler step and the uniform draw compared against dt times lmbd; Python
consumes one np.random.randn and one np.random.rand per step. -/
noncomputable def runPath (m : RegimeSwitchingModel) :
    (ℕ → ℝ × ℝ) → List ℝ → ℝ → ℕ → ℝ → List ℝ
  | _, [], _, _, _ => []
  | g, dt :: dts, xt, st, intx =>
    let xt2 := xt + m.kappa * ((if st = 0 then m.thetas.1 else m.thetas.2) - xt) * dt +
      (if st = 0 then m.sigmas.1 else m.sigmas.2) * (g 0).1 * Real.sqrt dt
    let intx2 := intx + dt * (xt + xt2) / 2
    intx2 :: runPath m (fun n => g (n + 1)) dts xt2
      (if (g 0).2 < dt * m.lmbd then 1 - st else st) intx2

/-- Effect of one simulated path on the two accumulator arrays: the running
integral reaching grid index k is pushed into integrals k, and its negative
exponential into exp_int k. -/
noncomputable def pushObs (acc : List RunningStats × List RunningStats)
    (obs : List ℝ) : List RunningStats × List RunningStats :=
  (List.zipWith (fun rs v => rs.push v) acc.1 obs,
   List.zipWith (fun rs v => rs.push (Real.exp (-v))) acc.2 obs)

/-- The accumulator updates of SlowSimulator.simulate over a list of paths,
each path described by its draw source. -/
noncomputable def applyPaths (m : RegimeSwitchingModel) (ts : List ℝ)
    (x : ℝ) (s : ℕ) (acc : List RunningStats × List RunningStats)
    (paths : List (ℕ → ℝ × ℝ)) : List RunningStats × List RunningStats :=
  paths.foldl (fun a g => pushObs a (runPath m g (mkDts ts) x s 0)) acc

/-- Method simulate of slow.py: run one path per element of paths (the
source draws num paths from the global numpy generator; here the draw
streams are an explicit argument), push the observations, then recompute
and store survival, survival1 and survival_std from the accumulators. -/
noncomputable def SlowSimulator.simulate (sim : SlowSimulator)
    (paths : List (ℕ → ℝ × ℝ)) : SlowSimulator :=
  let acc := applyPaths sim.model sim.ts sim.x sim.s (sim.integrals, sim.exp_int) paths
  { sim with
    integrals := acc.1
    exp_int := acc.2
    survival := acc.1.map fun rs => Real.exp (-rs.mean + 0.5 * rs.variance)
    survival1 := some (acc.2.map fun rs => rs.mean)
    survival_std := some (acc.2.map fun rs => Real.sqrt rs.variance) }

/-- One step of the path recursion exactly as worded in the claim for
simulate: advance x by the Euler and Maruyama update with regime-dependent
drift and volatility, add the trapezoidal increment to the integral, then
flip the regime when the uniform draw falls below dt times lmbd.  Written
from the claim, for comparison with runPath. -/
noncomputable def claimStep (m : RegimeSwitchingModel) (gu : ℝ × ℝ) (dt : ℝ)
    (st : ℝ × ℕ × ℝ) : ℝ × ℕ × ℝ :=
  let xb := st.1
  let sb := st.2.1
  let ib := st.2.2
  let xa := xb + m.kappa * ((if sb = 0 then m.thetas.1 else m.thetas.2) - xb) * dt +
    (if sb = 0 then m.sigmas.1 else m.sigmas.2) * Real.sqrt dt * gu.1
  (xa, if gu.2 < dt * m.lmbd then 1 - sb else sb, ib + dt * (xb + xa) / 2)

/-- Step size at grid index k as worded in the claim: the difference of
consecutive grid points, starting from 0. -/
noncomputable def claimDt (ts : List ℝ) (k : ℕ) : ℝ :=
  ts.getD k 0 - (if k = 0 then 0 else ts.getD (k - 1) 0)

/-- Path state after k steps as worded in the claim: start at the initial
point and regime with integral zero and iterate claimStep with the grid
steps of claimDt, consuming one draw pair per step. -/
noncomputable def claimPath (m : RegimeSwitchingModel) (g : ℕ → ℝ × ℝ)
    (ts : List ℝ) (x0 : ℝ) (s0 : ℕ) : ℕ → ℝ × ℕ × ℝ
  | 0 => (x0, s0, 0)
  | k + 1 => claimStep m (g k) (claimDt ts k) (claimPath m g ts x0 s0 k)

/-- Iterated claimStep over an explicit step list, used to bridge runPath
and claimPath. -/
noncomputable def iterSteps (m : RegimeSwitchingModel) (g : ℕ → ℝ × ℝ)
    (dts : List ℝ) (st : ℝ × ℕ × ℝ) : ℕ → ℝ × ℕ × ℝ
  | 0 => st
  | k + 1 => claimStep m (g k) (dts.getD k 0) (iterSteps m g dts st k)

lemma mkDts_length (ts : List ℝ) : (mkDts ts).length = ts.length := by
  simp [mkDts, List.length_zipWith]

lemma runPath_length (m : RegimeSwitchingModel) :
    ∀ (dts : List ℝ) (g : ℕ → ℝ × ℝ) (x : ℝ) (st : ℕ) (intx : ℝ),
      (runPath m g dts x st intx).length = dts.length := by
  intro dts
  induction dts with
  | nil => intro g x st intx; simp [runPath]
  | cons dt dts ih => intro g x st intx; simp [runPath, ih]

lemma claimStep_src (m : RegimeSwitchingModel) (g0 : ℝ × ℝ) (dt x : ℝ)
    (st : ℕ) (intx : ℝ) :
    claimStep m g0 dt (x, st, intx) =
      (x + m.kappa * ((if st = 0 then m.thetas.1 else m.thetas.2) - x) * dt +
         (if st = 0 then m.sigmas.1 else m.sigmas.2) * g0.1 * Real.sqrt dt,
       if g0.2 < dt * m.lmbd then 1 - st else st,
       intx + dt * (x + (x + m.kappa * ((if st = 0 then m.thetas.1 else m.thetas.2) - x) * dt +
         (if st = 0 then m.sigmas.1 else m.sigmas.2) * (g0.1) * Real.sqrt dt)) / 2) := by
  simp only [claimStep, Prod.mk.injEq]
  refine ⟨by ring, trivial, by ring⟩

lemma iterSteps_shift (m : RegimeSwitchingModel) (g : ℕ → ℝ × ℝ) (dt : ℝ)
    (dts : List ℝ) :
    ∀ (j : ℕ) (st : ℝ × ℕ × ℝ),
      iterSteps m g (dt :: dts) st (j + 1) =
        iterSteps m (fun n => g (n + 1)) dts (claimStep m (g 0) dt st) j := by
  intro j
  induction j with
  | zero => intro st; simp [iterSteps]
  | succ j ih =>
      intro st
      rw [iterSteps, ih, iterSteps, List.getD_cons_succ]

lemma runPath_getD_iterSteps (m : RegimeSwitchingModel) :
    ∀ (dts : List ℝ) (g : ℕ → ℝ × ℝ) (x : ℝ) (st : ℕ) (intx : ℝ) (k : ℕ),
      k < dts.length →
      (runPath m g dts x st intx).getD k 0 =
        (iterSteps m g dts (x, st, intx) (k + 1)).2.2 := by
  intro dts
  induction dts with
  | nil => intro g x st intx k hk; simp at hk
  | cons dt dts ih =>
      intro g x st intx k hk
      cases k with
      | zero =>
          show (runPath m g (dt :: dts) x st intx).getD 0 0 =
            (claimStep m (g 0) ((dt :: dts).getD 0 0) (x, st, intx)).2.2
          rw [runPath, claimStep_src]
          simp [List.getD_cons_zero]
      | succ k =>
          have hk2 : k < dts.length := by simpa using hk
          have hstep : claimStep m (g 0) dt (x, st, intx) =
              (x + m.kappa * ((if st = 0 then m.thetas.1 else m.thetas.2) - x) * dt +
                 (if st = 0 then m.sigmas.1 else m.sigmas.2) * (g 0).1 * Real.sqrt dt,
               if (g 0).2 < dt * m.lmbd then 1 - st else st,
               intx + dt * (x + (x + m.kappa * ((if st = 0 then m.thetas.1 else m.thetas.2) - x) * dt +
                 (if st = 0 then m.sigmas.1 else m.sigmas.2) * ((g 0).1) * Real.sqrt dt)) / 2) :=
            claimStep_src m (g 0) dt x st intx
          calc (runPath m g (dt :: dts) x st intx).getD (k + 1) 0
              = (runPath m (fun n => g (n + 1)) dts
                  (x + m.kappa * ((if st = 0 then m.thetas.1 else m.thetas.2) - x) * dt +
                    (if st = 0 then m.sigmas.1 else m.sigmas.2) * (g 0).1 * Real.sqrt dt)
                  (if (g 0).2 < dt * m.lmbd then 1 - st else st)
                  (intx + dt * (x + (x + m.kappa * ((if st = 0 then m.thetas.1 else m.thetas.2) - x) * dt +
                    (if st = 0 then m.sigmas.1 else m.sigmas.2) * ((g 0).1) * Real.sqrt dt)) / 2)).getD k 0 := by
                rw [runPath, List.getD_cons_succ]
            _ = (iterSteps m (fun n => g (n + 1)) dts
                  (claimStep m (g 0) dt (x, st, intx)) (k + 1)).2.2 := by
                rw [ih _ _ _ _ _ hk2, hstep]
            _ = (iterSteps m g (dt :: dts) (x, st, intx) (k + 1 + 1)).2.2 := by
                rw [iterSteps_shift]

lemma mkDts_getD (ts : List ℝ) (k : ℕ) (hk : k < ts.length) :
    (mkDts ts).getD k 0 = claimDt ts k := by
  have hlen : k < (mkDts ts).length := by rw [mkDts_length]; exact hk
  rw [List.getD_eq_getElem _ _ hlen]
  simp only [mkDts] at hlen ⊢
  rw [List.getElem_zipWith]
  cases k with
  | zero =>
      simp only [List.getElem_cons_zero, claimDt, if_pos rfl]
      rw [List.getD_eq_getElem _ _ hk]
      simp
  | succ j =>
      have hj : j < ts.length := by omega
      simp only [List.getElem_cons_succ, claimDt]
      rw [if_neg (by omega), List.getD_eq_getElem _ _ hk,
        List.getD_eq_getElem _ _ (show j + 1 - 1 < ts.length by omega)]
      simp

lemma iterSteps_claimPath (m : RegimeSwitchingModel) (g : ℕ → ℝ × ℝ)
    (ts : List ℝ) (x : ℝ) (s : ℕ) :
    ∀ j : ℕ, j ≤ ts.length →
      iterSteps m g (mkDts ts) (x, s, 0) j = claimPath m g ts x s j := by
  intro j
  induction j with
  | zero => intro _; rfl
  | succ j ih =>
      intro hj
      have hjlt : j < ts.length := by omega
      rw [iterSteps, claimPath, ih (by omega), mkDts_getD ts j hjlt]

lemma runPath_getD_claimPath (m : RegimeSwitchingModel) (g : ℕ → ℝ × ℝ)
    (ts : List ℝ) (x : ℝ) (s : ℕ) (k : ℕ) (hk : k < ts.length) :
    (runPath m g (mkDts ts) x s 0).getD k 0 =
      (claimPath m g ts x s (k + 1)).2.2 := by
  have h1 : k < (mkDts ts).length := by rw [mkDts_length]; exact hk
  rw [runPath_getD_iterSteps m (mkDts ts) g x s 0 k h1,
    iterSteps_claimPath m g ts x s (k + 1) (by omega)]

lemma getD_zipWith_apply (f : RunningStats → ℝ → RunningStats)
    (rss : List RunningStats) (vs : List ℝ) (k : ℕ)
    (h1 : k < rss.length) (h2 : k < vs.length) :
    (List.zipWith f rss vs).getD k RunningStats.empty =
      f (rss.getD k RunningStats.empty) (vs.getD k 0) := by
  rw [List.getD_eq_getElem _ _ (by simp [List.length_zipWith]; omega),
    List.getElem_zipWith, List.getD_eq_getElem _ _ h1, List.getD_eq_getElem _ _ h2]

lemma applyPaths_length (m : RegimeSwitchingModel) (ts : List ℝ) (x : ℝ) (s : ℕ) :
    ∀ (paths : List (ℕ → ℝ × ℝ)) (acc : List RunningStats × List RunningStats),
      acc.1.length = ts.length → acc.2.length = ts.length →
      (applyPaths m ts x s acc paths).1.length = ts.length ∧
        (applyPaths m ts x s acc paths).2.length = ts.length := by
  intro paths
  induction paths with
  | nil => intro acc h1 h2; exact ⟨h1, h2⟩
  | cons g gs ih =>
      intro acc h1 h2
      have e : applyPaths m ts x s acc (g :: gs) =
          applyPaths m ts x s (pushObs acc (runPath m g (mkDts ts) x s 0)) gs := rfl
      rw [e]
      refine ih _ ?_ ?_ <;>
        simp [pushObs, List.length_zipWith, h1, h2, runPath_length, mkDts_length]

lemma applyPaths_getD (m : RegimeSwitchingModel) (ts : List ℝ) (x : ℝ) (s : ℕ)
    (k : ℕ) (hk : k < ts.length) :
    ∀ (paths : List (ℕ → ℝ × ℝ)) (acc : List RunningStats × List RunningStats),
      acc.1.length = ts.length → acc.2.length = ts.length →
      (applyPaths m ts x s acc paths).1.getD k RunningStats.empty =
        (acc.1.getD k RunningStats.empty).pushList
          (paths.map fun g => (runPath m g (mkDts ts) x s 0).getD k 0) ∧
      (applyPaths m ts x s acc paths).2.getD k RunningStats.empty =
        (acc.2.getD k RunningStats.empty).pushList
          (paths.map fun g => Real.exp (-((runPath m g (mkDts ts) x s 0).getD k 0))) := by
  intro paths
  induction paths with
  | nil =>
      intro acc h1 h2
      constructor <;> simp [applyPaths, RunningStats.pushList]
  | cons g gs ih =>
      intro acc h1 h2
      have hobs : (runPath m g (mkDts ts) x s 0).length = ts.length := by
        rw [runPath_length, mkDts_length]
      have e : applyPaths m ts x s acc (g :: gs) =
          applyPaths m ts x s (pushObs acc (runPath m g (mkDts ts) x s 0)) gs := rfl
      have hl1 : (pushObs acc (runPath m g (mkDts ts) x s 0)).1.length = ts.length := by
        simp [pushObs, List.length_zipWith, h1, hobs]
      have hl2 : (pushObs acc (runPath m g (mkDts ts) x s 0)).2.length = ts.length := by
        simp [pushObs, List.length_zipWith, h2, hobs]
      obtain ⟨ih1, ih2⟩ := ih (pushObs acc (runPath m g (mkDts ts) x s 0)) hl1 hl2
      rw [e]
      constructor
      · rw [ih1]
        have : (pushObs acc (runPath m g (mkDts ts) x s 0)).1.getD k RunningStats.empty =
            (acc.1.getD k RunningStats.empty).push
              ((runPath m g (mkDts ts) x s 0).getD k 0) :=
          getD_zipWith_apply _ _ _ k (h1 ▸ hk) (hobs ▸ hk)
        rw [this]
        rfl
      · rw [ih2]
        have : (pushObs acc (runPath m g (mkDts ts) x s 0)).2.getD k RunningStats.empty =
            (acc.2.getD k RunningStats.empty).push
              (Real.exp (-((runPath m g (mkDts ts) x s 0).getD k 0))) :=
          getD_zipWith_apply _ _ _ k (h2 ▸ hk) (hobs ▸ hk)
        rw [this]
        rfl

/-- C9: for every valid parameter set (kappa positive, lmbd positive) and
every x, the boundary identities hold exactly at t equal to 0: tau 0 is 0,
a0 0 is 0, and u0 0 x is 1. -/
theorem c9_boundary_identities (kappa : ℝ) (thetas sigmas : ℝ × ℝ) (lmbd : ℝ)
    (x : ℝ) (hk : 0 < kappa) (hl : 0 < lmbd) :
    (RegimeSwitchingModel.make kappa thetas sigmas lmbd).tau 0 = 0 ∧
    (RegimeSwitchingModel.make kappa thetas sigmas lmbd).a0 0 = 0 ∧
    (RegimeSwitchingModel.make kappa thetas sigmas lmbd).u0 0 x = 1 := by
  have h1 : (RegimeSwitchingModel.make kappa thetas sigmas lmbd).tau 0 = 0 := by
    simp [RegimeSwitchingModel.tau]
  have h2 : (RegimeSwitchingModel.make kappa thetas sigmas lmbd).a0 0 = 0 := by
    simp [RegimeSwitchingModel.a0, h1]
  refine ⟨h1, h2, ?_⟩
  simp [RegimeSwitchingModel.u0, h1, h2]

/-- Witness for c9_boundary_identities at a concrete valid parameter set. -/
theorem c9_boundary_identities_witness :
    (RegimeSwitchingModel.make 2 (0.15, 0.02) (0.1, 0.2) 1.7).tau 0 = 0 ∧
    (RegimeSwitchingModel.make 2 (0.15, 0.02) (0.1, 0.2) 1.7).a0 0 = 0 ∧
    (RegimeSwitchingModel.make 2 (0.15, 0.02) (0.1, 0.2) 1.7).u0 0 0.11 = 1 :=
  c9_boundary_identities 2 (0.15, 0.02) (0.1, 0.2) 1.7 0.11 (by norm_num) (by norm_num)

/-- C8: for every valid parameter set and every t nonnegative and x, the two
implementations u0 and u0_check coincide exactly over the reals (they are
the same closed form), hence in particular they agree to within relative
tolerance 1e-9. -/
theorem c8_u0_check_equivalence (m : RegimeSwitchingModel) (t x : ℝ)
    (hk : 0 < m.kappa) (hl : 0 < m.lmbd) (ht : 0 ≤ t) :
    m.u0 t x = m.u0_check t x ∧
    |m.u0 t x - m.u0_check t x| ≤ 1e-9 * |m.u0_check t x| := by
  have heq : m.u0 t x = m.u0_check t x := by
    simp only [RegimeSwitchingModel.u0, RegimeSwitchingModel.u0_check,
      RegimeSwitchingModel.a0, RegimeSwitchingModel.tau]
    rw [← Real.exp_add]
    congr 1
    ring
  refine ⟨heq, ?_⟩
  rw [heq, sub_self, abs_zero]
  positivity

/-- Witness for c8_u0_check_equivalence at a concrete valid input. -/
theorem c8_u0_check_equivalence_witness :
    (RegimeSwitchingModel.make 2 (0.15, 0.02) (0.1, 0.2) 1.7).u0 3 0.11 =
      (RegimeSwitchingModel.make 2 (0.15, 0.02) (0.1, 0.2) 1.7).u0_check 3 0.11 ∧
    |(RegimeSwitchingModel.make 2 (0.15, 0.02) (0.1, 0.2) 1.7).u0 3 0.11 -
      (RegimeSwitchingModel.make 2 (0.15, 0.02) (0.1, 0.2) 1.7).u0_check 3 0.11| ≤
      1e-9 * |(RegimeSwitchingModel.make 2 (0.15, 0.02) (0.1, 0.2) 1.7).u0_check 3 0.11| :=
  c8_u0_check_equivalence (RegimeSwitchingModel.make 2 (0.15, 0.02) (0.1, 0.2) 1.7)
    3 0.11 (by norm_num [RegimeSwitchingModel.make]) (by norm_num [RegimeSwitchingModel.make])
    (by norm_num)

/-- C6: series t x s is the ordered five-element list u0, u0 times epsilon
times v1_symmetric, u0 times epsilon times pm times v1_antisymmetric, u0
times epsilon squared times v2_symmetric, u0 times epsilon squared times pm
times v2_antisymmetric, with epsilon equal to 1 over lmbd and pm equal to 1
for s zero and minus 1 otherwise; consequently the lists at s equal 0 and
s equal 1 coincide at indices 0, 1, 3 and differ exactly by sign at
indices 2 and 4. -/
theorem c6_series_structure (m : RegimeSwitchingModel) (t x : ℝ) (s : ℕ) :
    m.series t x s =
      [m.u0 t x,
       m.u0 t x * (1 / m.lmbd) * m.v1_symmetric t,
       m.u0 t x * (1 / m.lmbd) * (if s = 0 then (1 : ℝ) else -1) * m.v1_antisymmetric t,
       m.u0 t x * (1 / m.lmbd) ^ 2 * m.v2_symmetric t,
       m.u0 t x * (1 / m.lmbd) ^ 2 * (if s = 0 then (1 : ℝ) else -1) * m.v2_antisymmetric t] ∧
    (m.series t x 0).getD 0 0 = (m.series t x 1).getD 0 0 ∧
    (m.series t x 0).getD 1 0 = (m.series t x 1).getD 1 0 ∧
    (m.series t x 0).getD 3 0 = (m.series t x 1).getD 3 0 ∧
    (m.series t x 0).getD 2 0 = -((m.series t x 1).getD 2 0) ∧
    (m.series t x 0).getD 4 0 = -((m.series t x 1).getD 4 0) := by
  refine ⟨rfl, ?_, ?_, ?_, ?_, ?_⟩ <;>
    simp [RegimeSwitchingModel.series] <;> ring

/-- C3 counterexample: construction succeeds on invalid configurations.
The analytic engine accepts kappa equal to minus 1 without any error, and
the validator accepts the non-increasing time grid 2, 1; both contradict
the claim that such configurations fail immediately at construction. -/
theorem c3_counterexample :
    isOkE (RegimeSwitchingModel.init (-1) (0.15, 0.02) (0.1, 0.2) 1.7) = true ∧
    isOkE (SlowSimulator.init 2 (0.15, 0.02) (0.1, 0.2) 1.7 [2, 1] 0.11 1) = true := by
  have hm : RegimeSwitchingModel.init 2 (0.15, 0.02) (0.1, 0.2) (1.7 : ℝ) =
      .ok (RegimeSwitchingModel.make 2 (0.15, 0.02) (0.1, 0.2) 1.7) := by
    rw [RegimeSwitchingModel.init, if_neg (by norm_num)]
  constructor
  · rw [RegimeSwitchingModel.init, if_neg (by norm_num)]
    rfl
  · rw [SlowSimulator.init, hm, slowInitAux, if_pos (by norm_num)]
    rfl

/-- C3 as amended: the engine constructor succeeds exactly when lmbd is
nonzero (the only construction-time failure is the ZeroDivisionError from
epsilon equal to 1 over lmbd), and the validator constructor succeeds
exactly when additionally the grid is nonempty with positive first element;
kappa is never validated and grid monotonicity is never checked. -/
theorem c3_construction_characterization (kappa : ℝ) (thetas sigmas : ℝ × ℝ)
    (lmbd : ℝ) (ts : List ℝ) (x : ℝ) (s : ℕ) :
    (isOkE (RegimeSwitchingModel.init kappa thetas sigmas lmbd) = true ↔ lmbd ≠ 0) ∧
    (isOkE (SlowSimulator.init kappa thetas sigmas lmbd ts x s) = true ↔
      (lmbd ≠ 0 ∧ ∃ t0 tl, ts = t0 :: tl ∧ 0 < t0)) := by
  constructor
  · rw [RegimeSwitchingModel.init]
    by_cases hl : lmbd = 0
    · rw [if_pos hl]
      simp [isOkE, hl]
    · rw [if_neg hl]
      simp [isOkE, hl]
  · rw [SlowSimulator.init, RegimeSwitchingModel.init]
    by_cases hl : lmbd = 0
    · rw [if_pos hl, slowInitAux.eq_def]
      cases ts <;> simp [isOkE, hl]
    · rw [if_neg hl]
      cases ts with
      | nil => rw [slowInitAux]; simp [isOkE, hl]
      | cons t0 tl =>
          by_cases ht : t0 > 0
          · rw [slowInitAux, if_pos ht]
            simp only [isOkE, true_iff]
            exact ⟨hl, t0, tl, rfl, ht⟩
          · rw [slowInitAux, if_neg ht]
            simp only [isOkE, Bool.false_eq_true, false_iff]
            rintro ⟨-, t0', tl', heq, hpos⟩
            cases heq
            exact ht hpos

/-- C1 counterexample: the reduction np.nansum applied by u does not treat
every non-finite term as zero.  On a series value list containing a positive
infinity, nansum propagates the infinity while the claimed policy would
return the finite sum 1, and on an all-NaN five-term list nansum silently
returns the value zero instead of reporting a failure. -/
theorem c1_counterexample :
    nansum [FloatVal.finite 1, FloatVal.inf, FloatVal.finite 0,
      FloatVal.finite 0, FloatVal.finite 0] = FloatVal.inf ∧
    nonfiniteAsZeroSum [FloatVal.finite 1, FloatVal.inf, FloatVal.finite 0,
      FloatVal.finite 0, FloatVal.finite 0] = FloatVal.finite 1 ∧
    FloatVal.inf ≠ FloatVal.finite 1 ∧
    nansum [FloatVal.nan, FloatVal.nan, FloatVal.nan, FloatVal.nan,
      FloatVal.nan] = FloatVal.finite 0 := by
  refine ⟨rfl, ?_, fun h => FloatVal.noConfusion h, ?_⟩
  · simp only [nonfiniteAsZeroSum, List.filterMap_cons, List.filterMap_nil]
    norm_num
  · simp only [nansum, ieeeSum, nanToZero, List.map_cons, List.map_nil,
      List.foldl_cons, List.foldl_nil, FloatVal.add]
    norm_num

lemma foldl_add_finite : ∀ (l : List FloatVal) (a : ℝ),
    (∀ v ∈ l, v ≠ FloatVal.inf ∧ v ≠ FloatVal.neginf) →
    (l.map nanToZero).foldl FloatVal.add (FloatVal.finite a) =
      FloatVal.finite (a + (l.filterMap fun v =>
        match v with
        | FloatVal.finite r => some r
        | _ => none).sum) := by
  intro l
  induction l with
  | nil => intro a h; simp
  | cons v l ih =>
      intro a h
      have hv := h v (List.mem_cons_self v l)
      have hrest : ∀ w ∈ l, w ≠ FloatVal.inf ∧ w ≠ FloatVal.neginf :=
        fun w hw => h w (List.mem_cons_of_mem _ hw)
      cases v with
      | finite r =>
          simp only [List.map_cons, List.foldl_cons, List.filterMap_cons]
          rw [show nanToZero (FloatVal.finite r) = FloatVal.finite r from rfl,
            show FloatVal.add (FloatVal.finite a) (FloatVal.finite r) =
              FloatVal.finite (a + r) from rfl,
            ih (a + r) hrest]
          simp only [List.sum_cons]
          congr 1
          ring
      | nan =>
          simp only [List.map_cons, List.foldl_cons, List.filterMap_cons]
          rw [show nanToZero FloatVal.nan = FloatVal.finite 0 from rfl,
            show FloatVal.add (FloatVal.finite a) (FloatVal.finite 0) =
              FloatVal.finite (a + 0) from rfl,
            ih (a + 0) hrest]
          congr 1
          ring
      | inf => exact absurd rfl hv.1
      | neginf => exact absurd rfl hv.2

/-- C1 as amended: the reduction applied by u treats NaN terms as zero and
agrees with the finite-terms-only sum whenever no term is an infinity, but
an infinite term propagates into the result (see the counterexample), and
when every term is NaN the reduction silently returns zero rather than
reporting a failure. -/
theorem c1_nansum_policy (l : List FloatVal) :
    ((∀ v ∈ l, v ≠ FloatVal.inf ∧ v ≠ FloatVal.neginf) →
      nansum l = nonfiniteAsZeroSum l) ∧
    ((∀ v ∈ l, v = FloatVal.nan) → nansum l = FloatVal.finite 0) := by
  constructor
  · intro h
    rw [nansum, ieeeSum, foldl_add_finite l 0 h, nonfiniteAsZeroSum]
    congr 1
    ring
  · intro h
    have h2 : ∀ v ∈ l, v ≠ FloatVal.inf ∧ v ≠ FloatVal.neginf := by
      intro v hv
      rw [h v hv]
      exact ⟨fun hc => FloatVal.noConfusion hc, fun hc => FloatVal.noConfusion hc⟩
    rw [nansum, ieeeSum, foldl_add_finite l 0 h2]
    have h3 : (l.filterMap fun v =>
        match v with
        | FloatVal.finite r => some r
        | _ => none) = [] := by
      rw [List.filterMap_eq_nil_iff]
      intro v hv
      rw [h v hv]
    rw [h3]
    norm_num

/-- Witness for c1_nansum_policy at concrete term lists. -/
theorem c1_nansum_policy_witness :
    nansum [FloatVal.nan, FloatVal.finite 2] =
      nonfiniteAsZeroSum [FloatVal.nan, FloatVal.finite 2] ∧
    nansum [FloatVal.nan, FloatVal.nan] = FloatVal.finite 0 :=
  ⟨(c1_nansum_policy [FloatVal.nan, FloatVal.finite 2]).1 (by
      intro v hv
      simp only [List.mem_cons, List.not_mem_nil, or_false] at hv
      rcases hv with h | h <;> subst h <;>
        exact ⟨fun hc => FloatVal.noConfusion hc,
          fun hc => FloatVal.noConfusion hc⟩),
   (c1_nansum_policy [FloatVal.nan, FloatVal.nan]).2 (by
      intro v hv
      simp only [List.mem_cons, List.not_mem_nil, or_false, or_self] at hv
      exact hv)⟩

/-- C2 counterexample: the difficult-terms guard is not per sub-term.  When
one sub-term raises and another evaluates to the finite value 5, the code
replaces the whole group by the single entry zero, discarding the finite
sub-term as well, while the claimed policy keeps it; and a sub-term that
evaluates to infinity without raising is included in the group unfiltered
with no warning, while the claimed policy would exclude it. -/
theorem c2_counterexample :
    difficultTermsList [Except.error PyErr.overflowError,
      Except.ok (FloatVal.finite 5)] = [FloatVal.finite 0] ∧
    claimDifficultFiltered [Except.error PyErr.overflowError,
      Except.ok (FloatVal.finite 5)] = [FloatVal.finite 5] ∧
    FloatVal.finite 0 ≠ FloatVal.finite 5 ∧
    difficultTermsList [Except.ok FloatVal.inf] = [FloatVal.inf] ∧
    claimDifficultFiltered [Except.ok FloatVal.inf] = [] ∧
    difficultWarning [Except.ok FloatVal.inf] = false := by
  refine ⟨rfl, rfl, ?_, rfl, rfl, rfl⟩
  intro h
  exact absurd (FloatVal.finite.inj h) (by norm_num)

/-- C2 as amended: if evaluating any difficult sub-term raises, the whole
group (finite sub-terms included) is replaced by the single entry zero and
the warning is printed; if no sub-term raises, every computed value is kept
in the group, non-finite values included, and no warning is emitted. -/
theorem c2_difficult_group_policy (evals : List (Except PyErr FloatVal)) :
    ((∃ e ∈ evals, isOkE e = false) →
      difficultTermsList evals = [FloatVal.finite 0] ∧
        difficultWarning evals = true) ∧
    ((∀ e ∈ evals, isOkE e = true) →
      difficultTermsList evals = evals.filterMap Except.toOption ∧
        difficultWarning evals = false) := by
  constructor
  · rintro ⟨e, he, hf⟩
    have h1 : ¬(evals.all isOkE = true) := by
      intro hall
      rw [List.all_eq_true] at hall
      have := hall e he
      rw [hf] at this
      exact Bool.false_ne_true this
    have h2 : evals.all isOkE = false := by
      cases hb : evals.all isOkE
      · rfl
      · exact absurd hb h1
    constructor
    · rw [difficultTermsList, if_neg h1]
    · rw [difficultWarning, h2]
      rfl
  · intro h
    have h1 : evals.all isOkE = true := List.all_eq_true.mpr h
    constructor
    · rw [difficultTermsList, if_pos h1]
    · rw [difficultWarning, h1]
      rfl

/-- Witness for c2_difficult_group_policy at concrete evaluation outcomes. -/
theorem c2_difficult_group_policy_witness :
    (difficultTermsList [Except.error PyErr.overflowError] = [FloatVal.finite 0] ∧
      difficultWarning [Except.error PyErr.overflowError] = true) ∧
    (difficultTermsList [Except.ok (FloatVal.finite 3)] =
        ([Except.ok (FloatVal.finite 3)] :
          List (Except PyErr FloatVal)).filterMap Except.toOption ∧
      difficultWarning [Except.ok (FloatVal.finite 3)] = false) :=
  ⟨(c2_difficult_group_policy [Except.error PyErr.overflowError]).1
      ⟨Except.error PyErr.overflowError, by simp, rfl⟩,
   (c2_difficult_group_policy [Except.ok (FloatVal.finite 3)]).2 (by
      intro e he
      simp only [List.mem_cons, List.not_mem_nil, or_false] at he
      subst he
      rfl)⟩

lemma applyPaths_append (m : RegimeSwitchingModel) (ts : List ℝ) (x : ℝ)
    (s : ℕ) (acc : List RunningStats × List RunningStats)
    (p1 p2 : List (ℕ → ℝ × ℝ)) :
    applyPaths m ts x s acc (p1 ++ p2) =
      applyPaths m ts x s (applyPaths m ts x s acc p1) p2 := by
  simp [applyPaths, List.foldl_append]

/-- C7: simulate is purely incremental.  Two consecutive calls with path
batches p1 and p2 drawn from one stream produce exactly the simulator state
of a single call on the concatenated batch, and each call adds exactly one
observation per path to every grid-point accumulator, never resetting the
statistics accumulated before. -/
theorem c7_simulate_incremental (sim : SlowSimulator) (p1 p2 : List (ℕ → ℝ × ℝ))
    (h1 : sim.integrals.length = sim.ts.length)
    (h2 : sim.exp_int.length = sim.ts.length) :
    (sim.simulate p1).simulate p2 = sim.simulate (p1 ++ p2) ∧
    (∀ k, k < sim.ts.length →
      ((sim.simulate p1).integrals.getD k RunningStats.empty).n =
          (sim.integrals.getD k RunningStats.empty).n + p1.length ∧
      ((sim.simulate p1).exp_int.getD k RunningStats.empty).n =
          (sim.exp_int.getD k RunningStats.empty).n + p1.length) := by
  constructor
  · cases sim
    simp [SlowSimulator.simulate, applyPaths_append]
  · intro k hk
    obtain ⟨e1, e2⟩ := applyPaths_getD sim.model sim.ts sim.x sim.s k hk p1
      (sim.integrals, sim.exp_int) h1 h2
    constructor
    · show ((applyPaths sim.model sim.ts sim.x sim.s
        (sim.integrals, sim.exp_int) p1).1.getD k RunningStats.empty).n = _
      rw [e1, pushList_n]
      simp
    · show ((applyPaths sim.model sim.ts sim.x sim.s
        (sim.integrals, sim.exp_int) p1).2.getD k RunningStats.empty).n = _
      rw [e2, pushList_n]
      simp

/-- C4: every simulated path starts at the configured point and regime with
integral zero and evolves by the claimed recursion (Euler and Maruyama
update, trapezoidal integral increment, then regime flip when the uniform
draw falls below dt times lmbd, with steps the differences of consecutive
grid points starting from 0), and for each grid index k below the grid
length, simulate pushes the running integral after k plus 1 steps into the
integrals accumulator k and its negative exponential into the exp_int
accumulator k, once per path. -/
theorem c4_simulate_path_semantics (sim : SlowSimulator)
    (ps : List (ℕ → ℝ × ℝ)) (k : ℕ)
    (h1 : sim.integrals.length = sim.ts.length)
    (h2 : sim.exp_int.length = sim.ts.length)
    (hk : k < sim.ts.length) :
    (sim.simulate ps).integrals.getD k RunningStats.empty =
      (sim.integrals.getD k RunningStats.empty).pushList
        (ps.map fun g => (claimPath sim.model g sim.ts sim.x sim.s (k + 1)).2.2) ∧
    (sim.simulate ps).exp_int.getD k RunningStats.empty =
      (sim.exp_int.getD k RunningStats.empty).pushList
        (ps.map fun g =>
          Real.exp (-(claimPath sim.model g sim.ts sim.x sim.s (k + 1)).2.2)) ∧
    ∀ g : ℕ → ℝ × ℝ, claimPath sim.model g sim.ts sim.x sim.s 0 = (sim.x, sim.s, 0) := by
  obtain ⟨e1, e2⟩ := applyPaths_getD sim.model sim.ts sim.x sim.s k hk ps
    (sim.integrals, sim.exp_int) h1 h2
  have hmap1 : (ps.map fun g => (runPath sim.model g (mkDts sim.ts) sim.x sim.s 0).getD k 0) =
      ps.map fun g => (claimPath sim.model g sim.ts sim.x sim.s (k + 1)).2.2 :=
    List.map_congr_left fun g _ =>
      runPath_getD_claimPath sim.model g sim.ts sim.x sim.s k hk
  have hmap2 : (ps.map fun g =>
        Real.exp (-((runPath sim.model g (mkDts sim.ts) sim.x sim.s 0).getD k 0))) =
      ps.map fun g =>
        Real.exp (-(claimPath sim.model g sim.ts sim.x sim.s (k + 1)).2.2) :=
    List.map_congr_left fun g _ => by
      rw [runPath_getD_claimPath sim.model g sim.ts sim.x sim.s k hk]
  refine ⟨?_, ?_, fun g => rfl⟩
  · show (applyPaths sim.model sim.ts sim.x sim.s
      (sim.integrals, sim.exp_int) ps).1.getD k RunningStats.empty = _
    rw [e1, hmap1]
  · show (applyPaths sim.model sim.ts sim.x sim.s
      (sim.integrals, sim.exp_int) ps).2.getD k RunningStats.empty = _
    rw [e2, hmap2]

lemma getD_map_real (f : RunningStats → ℝ) (l : List RunningStats) (k : ℕ)
    (h : k < l.length) :
    (l.map f).getD k 0 = f (l.getD k RunningStats.empty) := by
  rw [List.getD_eq_getElem _ _ (by simpa using h),
    List.getElem_map, List.getD_eq_getElem _ _ h]

/-- C5: after a simulate batch, at every grid index k the stored curves are
exactly survival equal to exp of minus the mean plus half the variance of
all integral observations accumulated so far (prior observations plus one
per new path), survival1 equal to the mean of the negative exponentials of
those observations, and survival_std equal to the square root of their
variance; survival and survival1 are stored in separate attributes. -/
theorem c5_survival_estimators (sim : SlowSimulator) (ps : List (ℕ → ℝ × ℝ))
    (k : ℕ) (prior : List ℝ)
    (hk : k < sim.ts.length)
    (h1 : sim.integrals.length = sim.ts.length)
    (h2 : sim.exp_int.length = sim.ts.length)
    (h3 : sim.integrals.getD k RunningStats.empty = statsOf prior)
    (h4 : sim.exp_int.getD k RunningStats.empty =
      statsOf (prior.map fun v => Real.exp (-v))) :
    (sim.simulate ps).survival.getD k 0 =
      Real.exp (-listMean (prior ++ ps.map fun g =>
          (runPath sim.model g (mkDts sim.ts) sim.x sim.s 0).getD k 0) +
        0.5 * listVar (prior ++ ps.map fun g =>
          (runPath sim.model g (mkDts sim.ts) sim.x sim.s 0).getD k 0)) ∧
    (∃ l1, (sim.simulate ps).survival1 = some l1 ∧
      l1.getD k 0 = listMean ((prior ++ ps.map fun g =>
          (runPath sim.model g (mkDts sim.ts) sim.x sim.s 0).getD k 0).map
        fun v => Real.exp (-v))) ∧
    (∃ l2, (sim.simulate ps).survival_std = some l2 ∧
      l2.getD k 0 = Real.sqrt (listVar ((prior ++ ps.map fun g =>
          (runPath sim.model g (mkDts sim.ts) sim.x sim.s 0).getD k 0).map
        fun v => Real.exp (-v)))) := by
  obtain ⟨e1, e2⟩ := applyPaths_getD sim.model sim.ts sim.x sim.s k hk ps
    (sim.integrals, sim.exp_int) h1 h2
  obtain ⟨hl1, hl2⟩ := applyPaths_length sim.model sim.ts sim.x sim.s ps
    (sim.integrals, sim.exp_int) h1 h2
  have hacc1 : (applyPaths sim.model sim.ts sim.x sim.s
      (sim.integrals, sim.exp_int) ps).1.getD k RunningStats.empty =
      statsOf (prior ++ ps.map fun g =>
        (runPath sim.model g (mkDts sim.ts) sim.x sim.s 0).getD k 0) := by
    rw [e1, h3, pushList_statsOf]
  have hacc2 : (applyPaths sim.model sim.ts sim.x sim.s
      (sim.integrals, sim.exp_int) ps).2.getD k RunningStats.empty =
      statsOf ((prior ++ ps.map fun g =>
        (runPath sim.model g (mkDts sim.ts) sim.x sim.s 0).getD k 0).map
        fun v => Real.exp (-v)) := by
    rw [e2, h4, pushList_statsOf, List.map_append, List.map_map]
    rfl
  refine ⟨?_, ⟨_, rfl, ?_⟩, ⟨_, rfl, ?_⟩⟩
  · show ((applyPaths sim.model sim.ts sim.x sim.s
      (sim.integrals, sim.exp_int) ps).1.map fun rs =>
        Real.exp (-rs.mean + 0.5 * rs.variance)).getD k 0 = _
    rw [getD_map_real _ _ k (by rw [hl1]; exact hk), hacc1, statsOf_variance]
    rfl
  · show ((applyPaths sim.model sim.ts sim.x sim.s
      (sim.integrals, sim.exp_int) ps).2.map fun rs => rs.mean).getD k 0 = _
    rw [getD_map_real _ _ k (by rw [hl2]; exact hk), hacc2]
    rfl
  · show ((applyPaths sim.model sim.ts sim.x sim.s
      (sim.integrals, sim.exp_int) ps).2.map fun rs =>
        Real.sqrt rs.variance).getD k 0 = _
    rw [getD_map_real _ _ k (by rw [hl2]; exact hk), hacc2, statsOf_variance]

/-- C10: a freshly constructed validator has survival defined and equal to 1
at every grid point while survival1 and survival_std do not exist yet (they
are first assigned inside simulate), and every completed simulate call
defines all three, aligned to the ts grid. -/
theorem c10_attribute_lifecycle (kappa : ℝ) (thetas sigmas : ℝ × ℝ)
    (lmbd : ℝ) (ts : List ℝ) (x : ℝ) (s : ℕ) (sim0 : SlowSimulator)
    (ps : List (ℕ → ℝ × ℝ))
    (h : SlowSimulator.init kappa thetas sigmas lmbd ts x s = .ok sim0) :
    sim0.survival = (ts.map fun _ => (1 : ℝ)) ∧
    sim0.survival1 = none ∧
    sim0.survival_std = none ∧
    (sim0.simulate ps).survival.length = ts.length ∧
    (∃ l1, (sim0.simulate ps).survival1 = some l1 ∧ l1.length = ts.length) ∧
    (∃ l2, (sim0.simulate ps).survival_std = some l2 ∧ l2.length = ts.length) := by
  rw [SlowSimulator.init, RegimeSwitchingModel.init] at h
  by_cases hl : lmbd = 0
  · rw [if_pos hl] at h
    cases ts <;> simp [slowInitAux] at h
  · rw [if_neg hl] at h
    cases ts with
    | nil => simp [slowInitAux] at h
    | cons t0 tl =>
        by_cases ht : t0 > 0
        · rw [slowInitAux, if_pos ht] at h
          injection h with h'
          subst h'
          obtain ⟨hL1, hL2⟩ := applyPaths_length
            (RegimeSwitchingModel.make kappa thetas sigmas lmbd) (t0 :: tl) x s ps
            ((t0 :: tl).map fun _ => RunningStats.empty,
             (t0 :: tl).map fun _ => RunningStats.empty)
            (by simp) (by simp)
          refine ⟨rfl, rfl, rfl, ?_, ⟨_, rfl, ?_⟩, ⟨_, rfl, ?_⟩⟩
          · show ((applyPaths _ _ _ _ _ ps).1.map _).length = _
            rw [List.length_map]
            exact hL1
          · show ((applyPaths _ _ _ _ _ ps).2.map _).length = _
            rw [List.length_map]
            exact hL2
          · show ((applyPaths _ _ _ _ _ ps).2.map _).length = _
            rw [List.length_map]
            exact hL2
        · rw [slowInitAux, if_neg ht] at h
          exact Except.noConfusion h

/-- Concrete validator state used by the witnesses below: the state produced
by SlowSimulator.init with unit parameters and the one-point grid 1. -/
noncomputable def sampleSim : SlowSimulator :=
  { model := RegimeSwitchingModel.make 1 (0, 0) (0, 0) 1
    ts := [1]
    x := 0
    s := 0
    integrals := [RunningStats.empty]
    exp_int := [RunningStats.empty]
    survival := [1]
    survival1 := none
    survival_std := none }

/-- Witness for c7_simulate_incremental on a concrete one-path batch. -/
theorem c7_simulate_incremental_witness :
    (sampleSim.simulate [fun _ => ((0 : ℝ), (1 : ℝ))]).simulate [] =
      sampleSim.simulate ([fun _ => ((0 : ℝ), (1 : ℝ))] ++ []) ∧
    ((sampleSim.simulate [fun _ => ((0 : ℝ), (1 : ℝ))]).integrals.getD 0
        RunningStats.empty).n =
      (sampleSim.integrals.getD 0 RunningStats.empty).n + 1 :=
  ⟨(c7_simulate_incremental sampleSim [fun _ => ((0 : ℝ), (1 : ℝ))] [] rfl rfl).1,
   ((c7_simulate_incremental sampleSim [fun _ => ((0 : ℝ), (1 : ℝ))] [] rfl rfl).2
      0 (by decide)).1⟩

/-- Witness for c4_simulate_path_semantics on a concrete one-path batch. -/
theorem c4_simulate_path_semantics_witness :
    (sampleSim.simulate [fun _ => ((0 : ℝ), (1 : ℝ))]).integrals.getD 0
        RunningStats.empty =
      (sampleSim.integrals.getD 0 RunningStats.empty).pushList
        ([fun _ => ((0 : ℝ), (1 : ℝ))].map fun g =>
          (claimPath sampleSim.model g sampleSim.ts sampleSim.x sampleSim.s 1).2.2) ∧
    claimPath sampleSim.model (fun _ => ((0 : ℝ), (1 : ℝ))) sampleSim.ts
      sampleSim.x sampleSim.s 0 = (sampleSim.x, sampleSim.s, 0) :=
  ⟨(c4_simulate_path_semantics sampleSim [fun _ => ((0 : ℝ), (1 : ℝ))] 0
      rfl rfl (by decide)).1,
   (c4_simulate_path_semantics sampleSim [fun _ => ((0 : ℝ), (1 : ℝ))] 0
      rfl rfl (by decide)).2.2 _⟩

/-- Witness for c5_survival_estimators at the fresh concrete state. -/
theorem c5_survival_estimators_witness :
    (sampleSim.simulate ([] : List (ℕ → ℝ × ℝ))).survival.getD 0 0 =
      Real.exp (-listMean ([] : List ℝ) + 0.5 * listVar ([] : List ℝ)) ∧
    (∃ l1, (sampleSim.simulate ([] : List (ℕ → ℝ × ℝ))).survival1 = some l1 ∧
      l1.getD 0 0 = listMean ([] : List ℝ)) ∧
    (∃ l2, (sampleSim.simulate ([] : List (ℕ → ℝ × ℝ))).survival_std = some l2 ∧
      l2.getD 0 0 = Real.sqrt (listVar ([] : List ℝ))) :=
  c5_survival_estimators sampleSim [] 0 [] (by decide) rfl rfl
    statsOf_nil.symm statsOf_nil.symm

/-- Witness for c10_attribute_lifecycle at a concrete construction. -/
theorem c10_attribute_lifecycle_witness :
    sampleSim.survival = ([1].map fun _ => (1 : ℝ)) ∧
    sampleSim.survival1 = none ∧
    sampleSim.survival_std = none ∧
    (sampleSim.simulate ([] : List (ℕ → ℝ × ℝ))).survival.length = [1].length ∧
    (∃ l1, (sampleSim.simulate ([] : List (ℕ → ℝ × ℝ))).survival1 = some l1 ∧
      l1.length = [1].length) ∧
    (∃ l2, (sampleSim.simulate ([] : List (ℕ → ℝ × ℝ))).survival_std = some l2 ∧
      l2.length = [1].length) :=
  c10_attribute_lifecycle 1 (0, 0) (0, 0) 1 [1] 0 0 sampleSim [] (by
    rw [SlowSimulator.init, RegimeSwitchingModel.init, if_neg (by norm_num)]
    rw [slowInitAux, if_pos (by norm_num)]
    rfl)
